import Mathlib

/-
Verification of the Document Ingestion and Conversational Context Pipeline
(src/src/App.jsx, component DocumentSummarizer).

The JavaScript component is shallowly embedded below.  JavaScript strings
are modelled as Lean strings (one Char per UTF-16 code unit); the string
methods used by the source (trim, substring, startsWith, join) are embedded
as explicit Lean functions over the character list.  The asynchronous
environment (file reader, PDF parser, summarization service, chat service)
is modelled by outcome parameters: each call of a handler takes the outcome
the environment would produce, and the handler is a pure state transformer,
mirroring the fact that the source awaits every call to completion before
touching state again.
-/

/-- Whitespace as recognised by the JavaScript trim method, restricted to
the ASCII whitespace characters that can occur in this pipeline. -/
def isJsWs (c : Char) : Bool :=
  c = ' ' || c = '\t' || c = '\n' || c = '\r' || c = '\x0b' || c = '\x0c'

/-- Drop leading and trailing whitespace from a character list. -/
def trimChars (l : List Char) : List Char :=
  ((l.dropWhile isJsWs).reverse.dropWhile isJsWs).reverse

/-- Embedding of the JavaScript trim method. -/
def jsTrim (s : String) : String :=
  String.mk (trimChars s.data)

/-- Embedding of the JavaScript substring method with start index 0:
`s.substring(0, n)` keeps the first `n` code units. -/
def jsSubstringTo (s : String) (n : Nat) : String :=
  String.mk (s.data.take n)

/-- Embedding of the JavaScript startsWith method. -/
def jsStartsWith (s pre : String) : Bool :=
  pre.data.isPrefixOf s.data

/-- Embedding of `fragments.join(' ')` from the PDF page walk
(App.jsx line 90). -/
def jsJoinSp : List String → String
  | [] => ""
  | [s] => s
  | s :: rest => s ++ " " ++ jsJoinSp rest

/-- A chat message: role (the source uses the strings user and assistant)
and content (App.jsx lines 146-157). -/
structure Msg where
  role : String
  content : String
deriving Repr, DecidableEq

/-- The summary record returned by the summarization service
(fields rendered at App.jsx lines 321-401). -/
structure SummaryRecord where
  short : String
  detailed : String
  bullets : List String
  insights : List String
  keywords : List String
deriving Repr, DecidableEq

/-- The metadata of a selected file that validation reads:
declared media type and byte size (App.jsx lines 40 and 45). -/
structure FileInfo where
  ftype : String
  size : Nat
deriving Repr, DecidableEq

/-- Environment outcome for reading the content of a selected file:
a readable text file, a failing file reader, an openable PDF given as the
list of text fragments of each page in order, a PDF whose parsing throws,
or bytes whose content the extractor never inspects (images, Word files). -/
inductive DocContent where
  | txtBytes (s : String)
  | txtUnreadable
  | pdfDoc (pages : List (List String))
  | pdfCorrupt (msg : String)
  | otherBytes
deriving Repr, DecidableEq

/-- Result of text extraction: the extracted string, or the message of the
Error the source rejects with. -/
inductive ExtractResult where
  | ok (text : String)
  | err (msg : String)
deriving Repr, DecidableEq

/-- Environment outcome of the summarization fetch (App.jsx lines 113-125):
a parsed success body, a non-ok response whose JSON body optionally carries
an error field, or a thrown network error. -/
inductive SummOutcome where
  | success (rec : SummaryRecord)
  | httpError (errField : Option String)
  | networkError (msg : String)
deriving Repr, DecidableEq

/-- Result of generateSummaries: a summary record or an error message. -/
inductive SummResult where
  | ok (rec : SummaryRecord)
  | err (msg : String)
deriving Repr, DecidableEq

/-- Environment outcome of the chat fetch (App.jsx lines 159-171): a parsed
content string, or any failure (network error, non-ok status, malformed
body), which the source absorbs into the fallback turn. -/
inductive ChatOutcome where
  | success (content : String)
  | failure
deriving Repr, DecidableEq

/-- The accepted media-type allow-list (App.jsx lines 30-38). -/
def validTypes : List String :=
  [ "application/pdf",
    "application/msword",
    "application/vnd.openxmlformats-officedocument.wordprocessingml.document",
    "text/plain",
    "image/jpeg",
    "image/png",
    "image/jpg" ]

/-- The placeholder returned for image files (App.jsx line 104). -/
def ocrPlaceholder : String :=
  "[Image support requires OCR which is not yet implemented. Please upload a PDF or text file.]"

/-- The placeholder returned for Word files (App.jsx line 106). -/
def docxPlaceholder : String :=
  "[DOC/DOCX support requires additional libraries not yet installed. Please upload a PDF or text file.]"

/-- The per-page text of the PDF walk: fragments of one page joined with
single spaces (App.jsx line 90). -/
def pageText (frags : List String) : String :=
  jsJoinSp frags

/-- The accumulated PDF text: each page text followed by a newline, pages
in ascending order (App.jsx lines 85-92). -/
def pdfFullText : List (List String) → String
  | [] => ""
  | p :: rest => pageText p ++ "\n" ++ pdfFullText rest

/-- Embedding of extractText (App.jsx lines 74-109), dispatching on the
declared media type exactly as the source chain of comparisons does. -/
def extractText (ftype : String) (c : DocContent) : ExtractResult :=
  if ftype = "text/plain" then
    match c with
    | DocContent.txtBytes s => ExtractResult.ok s
    | _ => ExtractResult.err "Failed to read text file"
  else if ftype = "application/pdf" then
    match c with
    | DocContent.pdfDoc pages =>
        let fullText := pdfFullText pages
        if jsTrim fullText = "" then
          ExtractResult.err "No text found in PDF (it might be scanned/image-based)"
        else
          ExtractResult.ok fullText
    | DocContent.pdfCorrupt m =>
        ExtractResult.err ("Failed to extract text from PDF: " ++ m)
    | _ => ExtractResult.err ("Failed to extract text from PDF: " ++ "invalid data")
  else if jsStartsWith ftype "image/" then
    ExtractResult.ok ocrPlaceholder
  else
    ExtractResult.ok docxPlaceholder

/-- Embedding of generateSummaries (App.jsx lines 111-130).  The first
component is the text field of the request body sent to the service
(line 116, built from the argument unmodified); the second is the result.
A failing response throws with the JavaScript expression
errorData.error or-else a generic message (line 121): the or-else operator
falls back whenever the error field is falsy, that is when it is absent or
the empty string.  The surrounding catch rethrows with the fixed prefix
(line 128). -/
def generateSummaries (text : String) (o : SummOutcome) : String × SummResult :=
  ( text,
    match o with
    | SummOutcome.success rec => SummResult.ok rec
    | SummOutcome.httpError errField =>
        let inner := match errField with
          | some e => if e = "" then "API request failed" else e
          | none => "API request failed"
        SummResult.err ("Failed to generate summaries: " ++ inner)
    | SummOutcome.networkError m =>
        SummResult.err ("Failed to generate summaries: " ++ m) )

/-- An apostrophe character, used inside source string literals. -/
def apos : String := String.singleton (Char.ofNat 39)

/-- The synthetic assistant greeting seeded after summarization
(App.jsx lines 61-64). -/
def greetingMsg : Msg :=
  Msg.mk "assistant" ("Hello! I" ++ apos ++ "ve analyzed your document. Ask me anything about it!")

/-- The full component state: one field per useState hook of
DocumentSummarizer (App.jsx lines 9-18). -/
structure AppState where
  file : Option FileInfo
  extractedText : String
  summaries : Option SummaryRecord
  loading : Bool
  chatMessages : List Msg
  chatInput : String
  chatLoading : Bool
  activeView : String
  expandedSummary : Option String
  error : String
deriving Repr, DecidableEq

/-- The initial state of a freshly created component (App.jsx lines 9-18). -/
def initState : AppState :=
  { file := none
    extractedText := ""
    summaries := none
    loading := false
    chatMessages := []
    chatInput := ""
    chatLoading := false
    activeView := "upload"
    expandedSummary := some "short"
    error := "" }

/-- Embedding of handleFileSelect (App.jsx lines 26-72) for a selected
file.  The Bool component records whether extractText was invoked.
Validation happens first (type, then size); on acceptance the file is set
and extraction runs; an extraction or summarization failure lands in the
catch block (lines 65-68), which stores the error, returns to the upload
view and clears the file; the finally block clears loading. -/
def handleFileSelectT (s : AppState) (f : FileInfo) (c : DocContent)
    (o : SummOutcome) : AppState × Bool :=
  if validTypes.contains f.ftype = false then
    ({ s with error := "Please upload a valid file (PDF, DOC, DOCX, TXT)" }, false)
  else if f.size > 10 * 1024 * 1024 then
    ({ s with error := "File size must be less than 10MB" }, false)
  else
    let s1 := { s with file := some f, loading := true, error := "", activeView := "summary" }
    match extractText f.ftype c with
    | ExtractResult.err m =>
        ({ s1 with error := "Error processing document: " ++ m,
                   activeView := "upload", file := none, loading := false }, true)
    | ExtractResult.ok text =>
        let s2 := { s1 with extractedText := text }
        match (generateSummaries text o).2 with
        | SummResult.err m =>
            ({ s2 with error := "Error processing document: " ++ m,
                       activeView := "upload", file := none, loading := false }, true)
        | SummResult.ok rec =>
            ({ s2 with summaries := some rec,
                       chatMessages := [greetingMsg], loading := false }, true)

/-- Whether a given ingestion attempt fails at validation, extraction or
summarization (the cases of the error taxonomy that abort ingestion). -/
def ingestionFails (f : FileInfo) (c : DocContent) (o : SummOutcome) : Bool :=
  if validTypes.contains f.ftype = false then true
  else if f.size > 10 * 1024 * 1024 then true
  else
    match extractText f.ftype c with
    | ExtractResult.err _ => true
    | ExtractResult.ok text =>
        match (generateSummaries text o).2 with
        | SummResult.err _ => true
        | SummResult.ok _ => false

/-- The instruction part of the framing message, up to and including the
document header (App.jsx line 149); the truncated document text follows it. -/
def framingIntro : String :=
  "You are a helpful assistant answering questions about this document. Only use information from the document to answer questions.\n\nDocument:\n"

/-- The user-role framing message of a chat request: the instruction plus
the document text truncated to its first 20000 code units (App.jsx
lines 147-150). -/
def framingMsg (extracted : String) : Msg :=
  Msg.mk "user" (framingIntro ++ jsSubstringTo extracted 20000)

/-- The assistant-role acknowledgment message (App.jsx lines 151-154). -/
def ackMsg : Msg :=
  Msg.mk "assistant" "I understand. I will answer questions based only on the document content provided."

/-- The fixed fallback assistant turn appended when the chat call fails
(App.jsx lines 175-178). -/
def fallbackMsg : Msg :=
  Msg.mk "assistant" "Sorry, I encountered an error. Please try again."

/-- The assistant turn appended for a given chat outcome: the returned
content on success (App.jsx line 172), the fallback on failure. -/
def replyMsg : ChatOutcome → Msg
  | ChatOutcome.success answer => Msg.mk "assistant" answer
  | ChatOutcome.failure => fallbackMsg

/-- Embedding of handleChat (App.jsx lines 132-182).  The second component
is the message list dispatched to the chat service, none when the guard on
line 133 rejects the submission.  On acceptance the input is trimmed and
cleared, the user turn is appended, the outbound list is built from the
history as it stood before the append (the source closure over
chatMessages), and the assistant or fallback turn is appended when the call
resolves; the finally block clears chatLoading. -/
def handleChatT (s : AppState) (o : ChatOutcome) : AppState × Option (List Msg) :=
  if jsTrim s.chatInput = "" ∨ s.chatLoading = true then
    (s, none)
  else
    let userMessage := jsTrim s.chatInput
    let conversationHistory := s.chatMessages
    let messages :=
      [framingMsg s.extractedText, ackMsg] ++ conversationHistory
        ++ [Msg.mk "user" userMessage]
    let appended := s.chatMessages ++ [Msg.mk "user" userMessage]
    ({ s with chatInput := "",
              chatMessages := appended ++ [replyMsg o],
              chatLoading := false },
     some messages)

/-- Embedding of resetApp (App.jsx lines 184-192): it sets file,
extractedText, summaries, chatMessages, activeView and error back to their
initial values and touches nothing else. -/
def resetApp (s : AppState) : AppState :=
  { s with file := none
           extractedText := ""
           summaries := none
           chatMessages := []
           activeView := "upload"
           error := "" }

/-- The operations a session can perform, each carrying the environment
outcome of its remote calls: selecting a file (handleFileSelect),
submitting the current chat input (handleChat), typing into the chat input
box (the onChange handler, App.jsx line 473), toggling the detailed summary
panel (App.jsx line 327), switching the active view, and reset. -/
inductive Op where
  | fileSelect (f : FileInfo) (c : DocContent) (o : SummOutcome)
  | chat (o : ChatOutcome)
  | typeInput (t : String)
  | toggleDetailed
  | setView (v : String)
  | reset
deriving Repr, DecidableEq

/-- One step of the session state machine. -/
def applyOp (s : AppState) : Op → AppState
  | Op.fileSelect f c o => (handleFileSelectT s f c o).1
  | Op.chat o => (handleChatT s o).1
  | Op.typeInput t => { s with chatInput := t }
  | Op.toggleDetailed =>
      { s with expandedSummary :=
          if s.expandedSummary = some "detailed" then none else some "detailed" }
  | Op.setView v => { s with activeView := v }
  | Op.reset => resetApp s

/-- Run a sequence of operations from a state. -/
def runOps (s : AppState) (ops : List Op) : AppState :=
  ops.foldl applyOp s

/-- One successful chat turn: the question is typed into the input box and
submitted, and the service answers. -/
def doTurn (s : AppState) (t : String × String) : AppState :=
  (handleChatT { s with chatInput := t.1 } (ChatOutcome.success t.2)).1

/-- Run a list of successful chat turns. -/
def runTurns (s : AppState) (ts : List (String × String)) : AppState :=
  ts.foldl doTurn s

/-- The pair of ChatTurns one completed turn adds to the history. -/
def turnMsgs (t : String × String) : List Msg :=
  [Msg.mk "user" (jsTrim t.1), Msg.mk "assistant" t.2]

/-- The history contributed by a list of completed turns, in order. -/
def histOfTurns : List (String × String) → List Msg
  | [] => []
  | t :: rest => turnMsgs t ++ histOfTurns rest

/-- A session state seeded by an actual successful ingestion of a small
plain-text document, used to instantiate chat-phase statements. -/
def sampleRec : SummaryRecord := SummaryRecord.mk "s" "d" [] [] []

/-- The session state after a concrete successful ingestion. -/
def seededSession : AppState :=
  (handleFileSelectT initState (FileInfo.mk "text/plain" 5)
      (DocContent.txtBytes "doc") (SummOutcome.success sampleRec)).1

/-- A concrete ingestion input whose extraction succeeds and whose
summarization fails. -/
def failFile : FileInfo := FileInfo.mk "text/plain" 5

/-- A file of exactly 10 times 1024 times 1024 bytes. -/
def boundaryFile : FileInfo := FileInfo.mk "text/plain" (10 * 1024 * 1024)

/-- A file strictly above the size ceiling. -/
def bigFile : FileInfo := FileInfo.mk "application/pdf" (10 * 1024 * 1024 + 1)

/-- A session with a chat call in flight. -/
def busyState : AppState :=
  { initState with chatInput := "next question", chatLoading := true,
                   chatMessages := [greetingMsg] }

/-- A ready session whose input box holds only whitespace. -/
def wsInputState : AppState :=
  { initState with chatInput := "   ", chatMessages := [greetingMsg] }

/-- A ready session whose input box holds padded text. -/
def rawInputState : AppState :=
  { initState with chatInput := "  hi  ", extractedText := "d",
                   chatMessages := [greetingMsg] }

/-- A document text of 20001 characters. -/
def bigText : String := String.mk (List.replicate 20001 'a')

/-- A ready session over the long document. -/
def bigReadyState : AppState :=
  { initState with extractedText := bigText, chatMessages := [greetingMsg] }

/- Helper lemmas. -/

lemma handleChatT_accept (s : AppState) (o : ChatOutcome)
    (h1 : ¬ jsTrim s.chatInput = "") (h2 : s.chatLoading = false) :
    handleChatT s o =
      ({ s with chatInput := "",
                chatMessages := s.chatMessages
                  ++ [Msg.mk "user" (jsTrim s.chatInput), replyMsg o],
                chatLoading := false },
       some ([framingMsg s.extractedText, ackMsg] ++ s.chatMessages
               ++ [Msg.mk "user" (jsTrim s.chatInput)])) := by
  unfold handleChatT
  rw [if_neg]
  · simp
  · push_neg
    exact ⟨h1, by simp [h2]⟩

lemma doTurn_eq (s : AppState) (t : String × String)
    (ht : ¬ jsTrim t.1 = "") (hl : s.chatLoading = false) :
    doTurn s t = { s with chatInput := "",
                          chatMessages := s.chatMessages ++ turnMsgs t,
                          chatLoading := false } := by
  unfold doTurn
  rw [handleChatT_accept { s with chatInput := t.1 } (ChatOutcome.success t.2) ht hl]
  simp [turnMsgs, replyMsg]

lemma runTurns_fields (ts : List (String × String)) :
    ∀ s : AppState, s.chatLoading = false →
      (∀ t ∈ ts, ¬ jsTrim t.1 = "") →
      (runTurns s ts).chatMessages = s.chatMessages ++ histOfTurns ts
        ∧ (runTurns s ts).chatLoading = false
        ∧ (runTurns s ts).extractedText = s.extractedText := by
  induction ts with
  | nil =>
      intro s h1 _
      exact ⟨by simp [runTurns, histOfTurns], h1, rfl⟩
  | cons t rest ih =>
      intro s h1 h2
      have ht : ¬ jsTrim t.1 = "" := h2 t (by simp)
      have hstep : runTurns s (t :: rest) = runTurns (doTurn s t) rest := rfl
      have hd := doTurn_eq s t ht h1
      obtain ⟨ihm, ihl, iht⟩ :=
        ih (doTurn s t) (by rw [hd]) (fun u hu => h2 u (by simp [hu]))
      refine ⟨?_, by rw [hstep]; exact ihl, ?_⟩
      · rw [hstep, ihm, hd]
        simp [histOfTurns, List.append_assoc]
      · rw [hstep, iht, hd]

lemma histOfTurns_length (ts : List (String × String)) :
    (histOfTurns ts).length = 2 * ts.length := by
  induction ts with
  | nil => simp [histOfTurns]
  | cons t rest ih =>
      simp [histOfTurns, turnMsgs, ih]
      omega

lemma trimChars_eq_nil (l : List Char) (h : ∀ c ∈ l, isJsWs c = true) :
    trimChars l = [] := by
  have h1 : l.dropWhile isJsWs = [] :=
    List.dropWhile_eq_nil_iff.mpr (by simpa using h)
  unfold trimChars
  rw [h1]
  simp

lemma jsTrim_all_ws (s : String) (h : ∀ c ∈ s.data, isJsWs c = true) :
    jsTrim s = "" := by
  unfold jsTrim
  rw [trimChars_eq_nil s.data h]

lemma jsJoinSp_ws (frags : List String)
    (h : ∀ f ∈ frags, ∀ c ∈ f.data, isJsWs c = true) :
    ∀ c ∈ (jsJoinSp frags).data, isJsWs c = true := by
  induction frags with
  | nil => intro c hc; simp [jsJoinSp] at hc
  | cons f rest ih =>
      cases rest with
      | nil =>
          intro c hc
          exact h f (by simp) c hc
      | cons g r =>
          intro c hc
          rw [show jsJoinSp (f :: g :: r) = f ++ " " ++ jsJoinSp (g :: r) from rfl,
              String.data_append, String.data_append] at hc
          rcases List.mem_append.mp hc with h1 | h2
          · rcases List.mem_append.mp h1 with ha | hb
            · exact h f (by simp) c ha
            · have hc' : c = ' ' := by simpa using hb
              rw [hc']
              decide
          · exact ih (fun u hu => h u (by simp [hu])) c h2

lemma pdfFullText_ws (pages : List (List String))
    (h : ∀ p ∈ pages, ∀ frag ∈ p, ∀ c ∈ frag.data, isJsWs c = true) :
    ∀ c ∈ (pdfFullText pages).data, isJsWs c = true := by
  induction pages with
  | nil => intro c hc; simp [pdfFullText] at hc
  | cons p rest ih =>
      intro c hc
      rw [show pdfFullText (p :: rest) = pageText p ++ "\n" ++ pdfFullText rest from rfl,
          String.data_append, String.data_append] at hc
      rcases List.mem_append.mp hc with h1 | h2
      · rcases List.mem_append.mp h1 with ha | hb
        · exact jsJoinSp_ws p (h p (by simp)) c ha
        · have hc' : c = '\n' := by simpa using hb
          rw [hc']
          decide
      · exact ih (fun q hq => h q (by simp [hq])) c h2

lemma applyOp_flags (s : AppState) (op : Op)
    (h1 : s.loading = false) (h2 : s.chatLoading = false) :
    (applyOp s op).loading = false ∧ (applyOp s op).chatLoading = false := by
  cases op with
  | fileSelect f c o =>
      simp only [applyOp, handleFileSelectT]
      split
      · exact ⟨h1, h2⟩
      · split
        · exact ⟨h1, h2⟩
        · split
          · exact ⟨rfl, h2⟩
          · split
            · exact ⟨rfl, h2⟩
            · exact ⟨rfl, h2⟩
  | chat o =>
      simp only [applyOp, handleChatT]
      split
      · exact ⟨h1, h2⟩
      · exact ⟨h1, rfl⟩
  | typeInput t => exact ⟨h1, h2⟩
  | toggleDetailed => exact ⟨h1, h2⟩
  | setView v => exact ⟨h1, h2⟩
  | reset => exact ⟨h1, h2⟩

lemma runOps_flags (ops : List Op) :
    ∀ s : AppState, s.loading = false → s.chatLoading = false →
      (runOps s ops).loading = false ∧ (runOps s ops).chatLoading = false := by
  induction ops with
  | nil => intro s h1 h2; exact ⟨h1, h2⟩
  | cons op rest ih =>
      intro s h1 h2
      have h := applyOp_flags s op h1 h2
      exact ih (applyOp s op) h.1 h.2

/- Claim theorems. -/

/-- C1: for a session seeded with the synthetic greeting in which N chat
turns have completed successfully, the outbound message list of the next
accepted submission is the framing message, the acknowledgment, then
exactly 2N plus 1 prior ChatTurns (the seed greeting plus the two turns of
each completed exchange) in chronological order with role and content
verbatim, and finally the new user content. -/
theorem c1_conversation_ordering (s0 : AppState) (text : String)
    (ts : List (String × String)) (input : String) (o : ChatOutcome)
    (h0m : s0.chatMessages = [greetingMsg]) (h0l : s0.chatLoading = false)
    (h0t : s0.extractedText = text)
    (hts : ∀ t ∈ ts, ¬ jsTrim t.1 = "") (hin : ¬ jsTrim input = "") :
    (handleChatT { runTurns s0 ts with chatInput := input } o).2
        = some ([framingMsg text, ackMsg]
            ++ (greetingMsg :: histOfTurns ts)
            ++ [Msg.mk "user" (jsTrim input)])
      ∧ (runTurns s0 ts).chatMessages = greetingMsg :: histOfTurns ts
      ∧ (greetingMsg :: histOfTurns ts).length = 2 * ts.length + 1 := by
  obtain ⟨hm, hl, ht⟩ := runTurns_fields ts s0 h0l hts
  rw [h0m] at hm
  refine ⟨?_, by rw [hm]; rfl, by simp [histOfTurns_length]⟩
  rw [handleChatT_accept { runTurns s0 ts with chatInput := input } o hin hl]
  simp only [Option.some.injEq]
  rw [ht, h0t, hm]
  simp

/-- C1 witness: one completed turn on a session seeded by a concrete
successful ingestion, then a second submission. -/
theorem c1_conversation_ordering_witness :
    (handleChatT { runTurns seededSession [("q1", "a1")] with chatInput := "q2" }
        ChatOutcome.failure).2
        = some ([framingMsg "doc", ackMsg]
            ++ (greetingMsg :: histOfTurns [("q1", "a1")])
            ++ [Msg.mk "user" (jsTrim "q2")])
      ∧ (runTurns seededSession [("q1", "a1")]).chatMessages
          = greetingMsg :: histOfTurns [("q1", "a1")]
      ∧ (greetingMsg :: histOfTurns [("q1", "a1")]).length
          = 2 * [("q1", "a1")].length + 1 :=
  c1_conversation_ordering seededSession "doc" [("q1", "a1")] "q2"
    ChatOutcome.failure (by decide) (by decide) (by decide) (by decide) (by decide)

/-- C2 counterexample: a concrete ingestion that fails at summarization
(extraction succeeded first) leaves the newly extracted text in the
session, so the resulting state is not observationally identical to the
pre-ingestion state. -/
theorem c2_ingestion_abort_counterexample :
    ingestionFails failFile (DocContent.txtBytes "hi")
        (SummOutcome.httpError (some "boom")) = true
      ∧ (handleFileSelectT initState failFile (DocContent.txtBytes "hi")
          (SummOutcome.httpError (some "boom"))).1.extractedText
        ≠ initState.extractedText := by decide

/-- C2 amended: a failing ingestion creates no SummaryRecord and no
ConversationState, and either leaves the whole state unchanged apart from
the error message (validation failures) or clears the current document
(extraction and summarization failures); ExtractedText, however, is not
rolled back when the failure happens at the summarization stage. -/
theorem c2_ingestion_abort_amended (s : AppState) (f : FileInfo)
    (c : DocContent) (o : SummOutcome)
    (hfail : ingestionFails f c o = true) :
    (handleFileSelectT s f c o).1.summaries = s.summaries
      ∧ (handleFileSelectT s f c o).1.chatMessages = s.chatMessages
      ∧ ((handleFileSelectT s f c o).1
            = { s with error := (handleFileSelectT s f c o).1.error }
          ∨ (handleFileSelectT s f c o).1.file = none) := by
  unfold ingestionFails at hfail
  unfold handleFileSelectT
  split at hfail
  case isTrue hv =>
    rw [if_pos hv]
    exact ⟨rfl, rfl, Or.inl rfl⟩
  case isFalse hv =>
    rw [if_neg hv]
    split at hfail
    case isTrue hsz =>
      rw [if_pos hsz]
      exact ⟨rfl, rfl, Or.inl rfl⟩
    case isFalse hsz =>
      rw [if_neg hsz]
      split at hfail
      · exact ⟨rfl, rfl, Or.inr rfl⟩
      · split at hfail
        · exact ⟨rfl, rfl, Or.inr rfl⟩
        · exact absurd hfail (by simp)

/-- C2 witness: the amended statement at the concrete summarization
failure. -/
theorem c2_ingestion_abort_amended_witness :
    (handleFileSelectT initState failFile (DocContent.txtBytes "hi")
        (SummOutcome.httpError (some "boom"))).1.summaries = initState.summaries
      ∧ (handleFileSelectT initState failFile (DocContent.txtBytes "hi")
          (SummOutcome.httpError (some "boom"))).1.chatMessages = initState.chatMessages
      ∧ ((handleFileSelectT initState failFile (DocContent.txtBytes "hi")
            (SummOutcome.httpError (some "boom"))).1
            = { initState with
                  error := (handleFileSelectT initState failFile (DocContent.txtBytes "hi")
                    (SummOutcome.httpError (some "boom"))).1.error }
          ∨ (handleFileSelectT initState failFile (DocContent.txtBytes "hi")
              (SummOutcome.httpError (some "boom"))).1.file = none) :=
  c2_ingestion_abort_amended initState failFile (DocContent.txtBytes "hi")
    (SummOutcome.httpError (some "boom")) (by decide)

/-- C3 counterexample: a document of exactly 10 times 1024 times 1024
bytes passes validation, the extractor is invoked, and ingestion
completes, so the inclusive boundary does not fail. -/
theorem c3_size_boundary_counterexample :
    (handleFileSelectT initState boundaryFile (DocContent.txtBytes "hi")
        (SummOutcome.success sampleRec)).2 = true
      ∧ (handleFileSelectT initState boundaryFile (DocContent.txtBytes "hi")
          (SummOutcome.success sampleRec)).1.summaries = some sampleRec
      ∧ (handleFileSelectT initState boundaryFile (DocContent.txtBytes "hi")
          (SummOutcome.success sampleRec)).1.error = "" := by decide

/-- C3 amended: for a document of an accepted media type whose size
strictly exceeds 10 times 1024 times 1024 bytes, validation fails with the
size error and the extractor is never invoked; the boundary itself is
accepted. -/
theorem c3_size_boundary_amended (s : AppState) (f : FileInfo)
    (c : DocContent) (o : SummOutcome)
    (hty : validTypes.contains f.ftype = true)
    (hsz : 10 * 1024 * 1024 < f.size) :
    handleFileSelectT s f c o
      = ({ s with error := "File size must be less than 10MB" }, false) := by
  unfold handleFileSelectT
  rw [if_neg (by rw [hty]; simp), if_pos hsz]

/-- C3 witness: the amended statement at a concrete oversized file. -/
theorem c3_size_boundary_amended_witness :
    handleFileSelectT initState bigFile DocContent.otherBytes
        (SummOutcome.httpError none)
      = ({ initState with error := "File size must be less than 10MB" }, false) :=
  c3_size_boundary_amended initState bigFile DocContent.otherBytes
    (SummOutcome.httpError none) (by decide) (by decide)

/-- C4 counterexample: toggling the detailed-summary panel and then
resetting does not restore the expandedSummary component to its initial
value, so reset is not observationally identical to a fresh session in
every component. -/
theorem c4_reset_counterexample :
    resetApp (runOps initState [Op.toggleDetailed]) ≠ initState := by decide

/-- C4 amended: after any sequence of operations, reset restores the
document, ExtractedText, SummaryRecord, ConversationState, active view and
error message to their initial values (and no load is in flight), but the
chat input box and the expandedSummary toggle keep their current values. -/
theorem c4_reset_amended (ops : List Op) :
    resetApp (runOps initState ops)
      = { initState with chatInput := (runOps initState ops).chatInput,
                         expandedSummary := (runOps initState ops).expandedSummary } := by
  have h1 : (runOps initState ops).loading = false :=
    (runOps_flags ops initState rfl rfl).1
  have h2 : (runOps initState ops).chatLoading = false :=
    (runOps_flags ops initState rfl rfl).2
  cases hseq : runOps initState ops with
  | mk f et sm ld cm ci cl av es er =>
      rw [hseq] at h1 h2
      simp only [] at h1 h2
      simp [resetApp, initState, h1, h2]

/-- C5 counterexample: a failing service response whose body carries the
error field x does not surface with message exactly x; the source wraps it
in the fixed prefix. -/
theorem c5_summarize_message_counterexample :
    (generateSummaries "t" (SummOutcome.httpError (some "x"))).2
        = SummResult.err ("Failed to generate summaries: " ++ "x")
      ∧ (generateSummaries "t" (SummOutcome.httpError (some "x"))).2
        ≠ SummResult.err "x" := by decide

/-- C5 amended: the request body text field always equals the extracted
text unmodified; a failing service response with a nonempty error field x
surfaces as a failure whose message is the fixed prefix followed by x, and
a falsy error field (empty string, like an absent one) falls back to the
generic message behind the same prefix. -/
theorem c5_summarize_message_amended (text x : String) (hx : ¬ x = "") :
    (∀ o : SummOutcome, (generateSummaries text o).1 = text)
      ∧ (generateSummaries text (SummOutcome.httpError (some x))).2
        = SummResult.err ("Failed to generate summaries: " ++ x)
      ∧ (generateSummaries text (SummOutcome.httpError (some ""))).2
        = SummResult.err ("Failed to generate summaries: " ++ "API request failed") := by
  refine ⟨fun _ => rfl, ?_, rfl⟩
  simp [generateSummaries, hx]

/-- C5 witness: the amended statement at a concrete nonempty error
field. -/
theorem c5_summarize_message_amended_witness :
    ¬ "x" = ""
      ∧ ((∀ o : SummOutcome, (generateSummaries "t" o).1 = "t")
        ∧ (generateSummaries "t" (SummOutcome.httpError (some "x"))).2
          = SummResult.err ("Failed to generate summaries: " ++ "x")
        ∧ (generateSummaries "t" (SummOutcome.httpError (some ""))).2
          = SummResult.err ("Failed to generate summaries: " ++ "API request failed")) :=
  ⟨by decide, c5_summarize_message_amended "t" "x" (by decide)⟩

/-- C6: after any number of completed turns, the framing message at the
head of the outbound list carries the instruction followed by exactly the
first 20000 characters of ExtractedText, and for a document longer than
20000 characters that document portion has length exactly 20000, so no
character beyond the cutoff is included. -/
theorem c6_chat_truncation (s0 : AppState) (text : String)
    (ts : List (String × String)) (input : String) (o : ChatOutcome)
    (h0l : s0.chatLoading = false) (h0t : s0.extractedText = text)
    (hts : ∀ t ∈ ts, ¬ jsTrim t.1 = "") (hin : ¬ jsTrim input = "")
    (hlong : 20000 < text.length) :
    ((handleChatT { runTurns s0 ts with chatInput := input } o).2.getD []).head?
        = some (Msg.mk "user" (framingIntro ++ String.mk (text.data.take 20000)))
      ∧ (String.mk (text.data.take 20000)).length = 20000 := by
  obtain ⟨hm, hl, ht⟩ := runTurns_fields ts s0 h0l hts
  constructor
  · rw [handleChatT_accept { runTurns s0 ts with chatInput := input } o hin hl]
    simp [framingMsg, jsSubstringTo, ht, h0t]
  · rw [String.length_mk, List.length_take]
    have hdata : text.length = text.data.length := rfl
    omega

/-- C6 witness: the truncation statement on a concrete 20001-character
document with no prior turns. -/
theorem c6_chat_truncation_witness :
    ((handleChatT { runTurns bigReadyState [] with chatInput := "q" }
          (ChatOutcome.success "x")).2.getD []).head?
        = some (Msg.mk "user" (framingIntro ++ String.mk (bigText.data.take 20000)))
      ∧ (String.mk (bigText.data.take 20000)).length = 20000 :=
  c6_chat_truncation bigReadyState bigText [] "q" (ChatOutcome.success "x")
    rfl rfl (by simp) (by decide)
    (by rw [show bigText = String.mk (List.replicate 20001 'a') from rfl,
            String.length_mk, List.length_replicate]; omega)

/-- C7: a submission made while a chat call is in flight, and a submission
whose text is empty or whitespace-only, is rejected with no state change
and no outbound request. -/
theorem c7_concurrency_guard (s : AppState) (o : ChatOutcome)
    (h : jsTrim s.chatInput = "" ∨ s.chatLoading = true) :
    handleChatT s o = (s, none) := by
  unfold handleChatT
  rw [if_pos h]

/-- C7 witness: the guard at a concrete in-flight session and at a
concrete whitespace-only input. -/
theorem c7_concurrency_guard_witness :
    handleChatT busyState ChatOutcome.failure = (busyState, none)
      ∧ handleChatT wsInputState (ChatOutcome.success "x") = (wsInputState, none) :=
  ⟨c7_concurrency_guard busyState ChatOutcome.failure (Or.inr rfl),
   c7_concurrency_guard wsInputState (ChatOutcome.success "x") (Or.inl (by decide))⟩

/-- C8: a PDF whose concatenated page text contains only whitespace
characters fails with the no-extractable-text error rather than
succeeding with an empty string. -/
theorem c8_no_extractable_text (pages : List (List String))
    (h : ∀ p ∈ pages, ∀ frag ∈ p, ∀ c ∈ frag.data, isJsWs c = true) :
    extractText "application/pdf" (DocContent.pdfDoc pages)
      = ExtractResult.err "No text found in PDF (it might be scanned/image-based)" := by
  have htrim : jsTrim (pdfFullText pages) = "" :=
    jsTrim_all_ws _ (pdfFullText_ws pages h)
  have hred : extractText "application/pdf" (DocContent.pdfDoc pages)
      = (if jsTrim (pdfFullText pages) = "" then
           ExtractResult.err "No text found in PDF (it might be scanned/image-based)"
         else ExtractResult.ok (pdfFullText pages)) := rfl
  rw [hred, if_pos htrim]

/-- C8 witness: a concrete PDF whose pages yield only whitespace
fragments. -/
theorem c8_no_extractable_text_witness :
    extractText "application/pdf" (DocContent.pdfDoc [[" ", "  "], [""]])
      = ExtractResult.err "No text found in PDF (it might be scanned/image-based)" :=
  c8_no_extractable_text [[" ", "  "], [""]] (by decide)

/-- C9: an accepted submission appends a user ChatTurn carrying the
trimmed input, and the final message of the outbound list carries the same
trimmed input. -/
theorem c9_trimmed_input (s : AppState) (o : ChatOutcome)
    (h1 : ¬ jsTrim s.chatInput = "") (h2 : s.chatLoading = false) :
    (handleChatT s o).1.chatMessages
        = s.chatMessages ++ [Msg.mk "user" (jsTrim s.chatInput), replyMsg o]
      ∧ (handleChatT s o).2
        = some ([framingMsg s.extractedText, ackMsg] ++ s.chatMessages
            ++ [Msg.mk "user" (jsTrim s.chatInput)]) := by
  rw [handleChatT_accept s o h1 h2]
  exact ⟨rfl, rfl⟩

/-- C9 witness: a concrete padded input. -/
theorem c9_trimmed_input_witness :
    (handleChatT rawInputState (ChatOutcome.success "ans")).1.chatMessages
        = rawInputState.chatMessages
          ++ [Msg.mk "user" (jsTrim rawInputState.chatInput),
              replyMsg (ChatOutcome.success "ans")]
      ∧ (handleChatT rawInputState (ChatOutcome.success "ans")).2
        = some ([framingMsg rawInputState.extractedText, ackMsg]
            ++ rawInputState.chatMessages
            ++ [Msg.mk "user" (jsTrim rawInputState.chatInput)]) :=
  c9_trimmed_input rawInputState (ChatOutcome.success "ans") (by decide) rfl

/-- C10: the allow-list accepts the non-standard media type image/jpg, and
every allow-listed media type that starts with image/ takes the
OCR-placeholder extraction path regardless of content. -/
theorem c10_image_jpg_allowlist :
    validTypes.contains "image/jpg" = true
      ∧ ∀ t, validTypes.contains t = true → jsStartsWith t "image/" = true →
          ∀ c, extractText t c = ExtractResult.ok ocrPlaceholder := by
  refine ⟨by decide, ?_⟩
  intro t ht hst c
  have hmem : t ∈ validTypes := List.mem_of_elem_eq_true ht
  simp only [validTypes, List.mem_cons, List.not_mem_nil, or_false] at hmem
  rcases hmem with rfl | rfl | rfl | rfl | rfl | rfl | rfl
  · exact absurd hst (by decide)
  · exact absurd hst (by decide)
  · exact absurd hst (by decide)
  · exact absurd hst (by decide)
  · rfl
  · rfl
  · rfl

/-- C10 witness: the OCR path at the concrete type image/jpg. -/
theorem c10_image_jpg_allowlist_witness :
    extractText "image/jpg" DocContent.otherBytes = ExtractResult.ok ocrPlaceholder :=
  c10_image_jpg_allowlist.2 "image/jpg" (by decide) (by decide) DocContent.otherBytes
